import Mathlib

/-!
Verification of the conversation-state and message-dispatch layer of an
agentic Telegram bot (files `bot/telegram.py`, `bot/agents.py`,
`bot/config.py`, `app.py`).  The Python code is shallowly embedded: the
message handler becomes a pure function from the conversation map and an
inbound update to the new map plus a list of observable effects; the agent
runtime is an oracle function that either returns a reply string or raises
(modelled with `Except`); the startup path is a function into `Except`
whose `.error` models an exception propagating uncaught out of `main`.
-/

namespace TgBot

/-- One entry of a conversation history, `{"role": ..., "content": ...}`.
`content` is optional because `update.message.text` can be `None` in the
Python source (the conversations dict is typed `str | Any | None`). -/
structure Turn where
  role : String
  content : Option String
deriving Repr, DecidableEq

/-- An inbound Telegram message as far as the handler reads it:
`chat_id`, `message_id` and the optional text. -/
structure Message where
  chat_id : Int
  message_id : Int
  text : Option String
deriving Repr, DecidableEq

/-- `update.effective_chat`, of which the handler reads only `.id`. -/
structure Chat where
  id : Int
deriving Repr, DecidableEq

/-- An inbound update: `update.message` and `update.effective_chat`,
each possibly absent. -/
structure Update where
  message : Option Message
  effective_chat : Option Chat
deriving Repr, DecidableEq

/-- Whether an inbound update carries textual content
(`update.message.text` is present). -/
def Update.carriesText (u : Update) : Bool :=
  (u.message.bind Message.text).isSome

/-- The per-channel conversation store `self.conversations`:
a map from chat id to the `"messages"` list (absent key = `none`). -/
def Conversations : Type := Int → Option (List Turn)

/-- The empty store (fresh bot, `self.conversations = {}`). -/
def Conversations.empty : Conversations := fun _ => none

/-- `self.conversations[chat_id] = v`. -/
def Conversations.set (c : Conversations) (chatId : Int) (v : List Turn) : Conversations :=
  fun d => if d = chatId then some v else c d

/-- Observable effects of one handler invocation (log lines excluded). -/
inductive Effect where
  /-- `self.agent.run(messages)` was invoked with this payload. -/
  | agentInvoked (payload : List Turn)
  /-- `update.message.reply_text(text)`: a plain-text reply to the
  originating message. -/
  | replyText (text : String)
  /-- `context.bot.send_message(chat_id=..., text=..., parse_mode=HTML,
  reply_parameters=ReplyParameters(message_id=...))`. -/
  | sendQuoted (chatId : Int) (replyToMessageId : Int) (text : String)
deriving Repr, DecidableEq

/-- The payloads of the `agentInvoked` effects in a list of effects. -/
def agentPayloads : List Effect → List (List Turn)
  | [] => []
  | .agentInvoked p :: es => p :: agentPayloads es
  | _ :: es => agentPayloads es

/-- The reply/send effects (everything except `agentInvoked`). -/
def sends : List Effect → List Effect
  | [] => []
  | .agentInvoked _ :: es => sends es
  | e :: es => e :: sends es

/-- Python `l[-n:]`: the last `n` elements (all of them when fewer). -/
def lastN (n : Nat) (l : List α) : List α := l.drop (l.length - n)

/-- The prefix of the user-visible error message built in the `except`
branch, `f"I\x27m sorry, I encountered an error: {str(e)}"`. -/
def apologyHead : String := "I\x27m sorry, I encountered an error: "

/-- `TelegramMCPBot._procress_message` from `bot/telegram.py`.
`agentRun` is the oracle for `await self.agent.run(messages)`: `.ok r` is a
normal return, `.error e` an exception whose `str(e)` is `e`.
Returns the updated conversation map and the effects, in order. -/
def procressMessage (agentRun : List Turn → Except String String)
    (conversations : Conversations) (update : Update) :
    Conversations × List Effect :=
  match update.message, update.effective_chat with
  | none, _ => (conversations, [])
  | _, none => (conversations, [])
  | some msg, some chat =>
    let chatId := msg.chat_id
    -- if chat_id not in self.conversations: self.conversations[chat_id] = {"messages": []}
    let conversations :=
      match conversations chatId with
      | none => conversations.set chatId []
      | some _ => conversations
    -- self.conversations[chat_id]["messages"].append({"role": "user", "content": update.message.text})
    let hist := (conversations chatId).getD []
    let hist := hist ++ [⟨"user", msg.text⟩]
    let conversations := conversations.set chatId hist
    -- messages.extend(self.conversations[chat_id]["messages"][-5:])
    let messages := lastN 5 hist
    -- agent_resp = await self.agent.run(messages)
    match agentRun messages with
    | .error e =>
      -- except Exception as e: await update.message.reply_text(error_message)
      (conversations,
        [.agentInvoked messages, .replyText (apologyHead ++ e)])
    | .ok agent_resp =>
      -- self.conversations[chat_id]["messages"].append({"role": "assistant", "content": agent_resp})
      let conversations := conversations.set chatId (hist ++ [⟨"assistant", some agent_resp⟩])
      if agent_resp.length < 200 then
        (conversations, [.agentInvoked messages, .replyText agent_resp])
      else
        (conversations,
          [.agentInvoked messages,
           .sendQuoted chat.id msg.message_id
             ("<blockquote expandable>" ++ agent_resp ++ "</blockquote>")])

/-- Sequential processing of a list of inbound updates; returns the final
store and, per update, the effect list of its handler invocation. -/
def processSeq (agentRun : List Turn → Except String String) :
    List Update → Conversations → Conversations × List (List Effect)
  | [], c => (c, [])
  | u :: us, c =>
    let r := procressMessage agentRun c u
    let rest := processSeq agentRun us r.1
    (rest.1, r.2 :: rest.2)

/-- The conversation history stored for `m.chat_id` at the moment
`agent.run` is called: the previously stored history (empty for a fresh
channel) extended by the just-appended user turn. -/
def historyAtRunCall (conversations : Conversations) (m : Message) : List Turn :=
  (conversations m.chat_id).getD [] ++ [⟨"user", m.text⟩]

/-- The payload the handler submits to the agent:
`self.conversations[chat_id]["messages"][-5:]` right after the user
turn has been appended. -/
def submissionPayload (conversations : Conversations) (m : Message) : List Turn :=
  lastN 5 (historyAtRunCall conversations m)

/-- Six sequential user messages on chat 0 (end-to-end scenario of six
user messages on one channel). -/
def sixUserMessages : List Update :=
  [⟨some ⟨0, 1, some "m1"⟩, some ⟨0⟩⟩,
   ⟨some ⟨0, 2, some "m2"⟩, some ⟨0⟩⟩,
   ⟨some ⟨0, 3, some "m3"⟩, some ⟨0⟩⟩,
   ⟨some ⟨0, 4, some "m4"⟩, some ⟨0⟩⟩,
   ⟨some ⟨0, 5, some "m5"⟩, some ⟨0⟩⟩,
   ⟨some ⟨0, 6, some "m6"⟩, some ⟨0⟩⟩]

/-- A string of `n` copies of the character `a` (used to probe the
200-character formatting boundary). -/
def manyChars (n : Nat) : String := String.mk (List.replicate n "a".head)

/-- `OpenAIAgent.connect` from `bot/agents.py`: iterate over the
configured servers (type `σ`); `attempt s` is the outcome of
`await mcp_server.connect()`.  The result is in `Except` so that an
exception escaping the loop would surface as `.error`; the per-server
`try/except` instead converts each failure into a logged entry (`false`)
and moves on.  Returns one `(server, succeeded)` entry per configured
server, in iteration order. -/
def OpenAIAgent_connect {σ : Type} (attempt : σ → Except String Unit) :
    List σ → Except String (List (σ × Bool))
  | [] => .ok []
  | s :: rest =>
    let entry : σ × Bool :=
      match attempt s with
      | .ok _ => (s, true)
      | .error _ => (s, false)
    match OpenAIAgent_connect attempt rest with
    | .ok entries => .ok (entry :: entries)
    | .error e => .error e

/-- `connect` followed by a `run` call: if `connect` raised, the
exception would propagate and the `run` call would never be reached. -/
def connectThenRun {σ : Type} (attempt : σ → Except String Unit)
    (servers : List σ) (runCall : Except String String) :
    Except String String := do
  let _ ← OpenAIAgent_connect attempt servers
  runCall

/-- An entry of the agent wrapper buffer `self.messages` in
`bot/agents.py` (a `TResponseInputItem`): either a
`{"role": "user", "content": message}` dict appended by `run` (content of
arbitrary type `μ`, since the caller in `bot/telegram.py` actually passes
a list rather than a string), or any other item produced by the runner
method `to_input_list()` (opaque type `ρ`). -/
inductive AgentItem (μ ρ : Type) where
  | user (content : μ)
  | runtime (item : ρ)
deriving Repr, DecidableEq

/-- The result of `Runner.run`: the `to_input_list()` view and the
`final_output` string. -/
structure RunResult (μ ρ : Type) where
  input_list : List (AgentItem μ ρ)
  final_output : String

/-- `OpenAIAgent.run` from `bot/agents.py`: append the argument as one
user entry to the internal buffer, submit the whole buffer to the runner,
then replace the buffer with the runner output of `to_input_list()`
truncated to its last 5 entries (`self.messages = self.messages[-5:]`).
Returns the final output and the new buffer. -/
def OpenAIAgent_run {μ ρ : Type} (runner : List (AgentItem μ ρ) → RunResult μ ρ)
    (messages : List (AgentItem μ ρ)) (message : μ) :
    String × List (AgentItem μ ρ) :=
  let messages := messages ++ [.user message]
  let result := runner messages
  let messages := lastN 5 result.input_list
  (result.final_output, messages)

/-- The two failure modes of `Configuration.load_config` in
`bot/config.py`: `FileNotFoundError` from `open`, `JSONDecodeError` from
`json.load`. -/
inductive ConfigError where
  | fileNotFound
  | jsonDecode
deriving Repr, DecidableEq

/-- `Configuration.load_config` from `bot/config.py`: `open(file_path)`
raises when the file does not exist, `json.load` raises when the contents
are not valid JSON; otherwise the parsed document is returned.  `fs`
models the file system (path to raw contents), `parseJson` the JSON
parser (generic document type `J`). -/
def load_config {J : Type} (fs : String → Option String)
    (parseJson : String → Option J) (file_path : String) : Except ConfigError J :=
  match fs file_path with
  | none => .error .fileNotFound
  | some raw =>
    match parseJson raw with
    | none => .error .jsonDecode
    | some j => .ok j

/-- The fields a successfully constructed `TelegramMCPBot` retains. -/
structure BotInit where
  bot_username : String
  token : String
deriving Repr, DecidableEq

/-- `TelegramMCPBot.__init__` from `bot/telegram.py`: raises
`ValueError("BOT_USERNAME is not set")` when the username is `None`
(checked first), then `ValueError("TELEGRAM_TOKEN is not set")` when the
token is `None`; otherwise construction succeeds. -/
def TelegramMCPBot_init (token : Option String) (bot_username : Option String) :
    Except String BotInit :=
  match bot_username with
  | none => .error "BOT_USERNAME is not set"
  | some u =>
    match token with
    | none => .error "TELEGRAM_TOKEN is not set"
    | some t => .ok ⟨u, t⟩

/-- An exception propagating out of the startup path. -/
inductive StartupError where
  | config (e : ConfigError)
  | value (msg : String)
deriving Repr, DecidableEq

/-- The startup path of `main()` in `app.py` before its `try` block:
read the environment, `load_config("servers_config.json")`, construct the
bot.  An `.error` result models an exception propagating out of `main`
uncaught (the `try` block around `tg_bot.run()` does not enclose this
code), aborting the process. -/
def mainStartup {J : Type} (fs : String → Option String)
    (parseJson : String → Option J) (token bot_username : Option String) :
    Except StartupError BotInit :=
  match load_config fs parseJson "servers_config.json" with
  | .error e => .error (.config e)
  | .ok _ =>
    match TelegramMCPBot_init token bot_username with
    | .error msg => .error (.value msg)
    | .ok b => .ok b

end TgBot

namespace TgBot

lemma lastN_length_le (n : Nat) (l : List α) : (lastN n l).length ≤ n := by
  simp only [lastN, List.length_drop]
  omega

lemma lastN_length_le_length (n : Nat) (l : List α) : (lastN n l).length ≤ l.length := by
  simp only [lastN, List.length_drop]
  omega

lemma lastN_suffix (n : Nat) (l : List α) : lastN n l <:+ l :=
  List.drop_suffix _ _

/-- Unfolding lemma: the effects of one handler invocation on a
well-formed update (message and chat both present). -/
lemma procressMessage_effects (f : List Turn → Except String String)
    (convs : Conversations) (m : Message) (c : Chat) :
    (procressMessage f convs ⟨some m, some c⟩).2 =
      match f (submissionPayload convs m) with
      | .error e =>
          [.agentInvoked (submissionPayload convs m),
           .replyText (apologyHead ++ e)]
      | .ok r =>
          if r.length < 200 then
            [.agentInvoked (submissionPayload convs m), .replyText r]
          else
            [.agentInvoked (submissionPayload convs m),
             .sendQuoted c.id m.message_id
               ("<blockquote expandable>" ++ r ++ "</blockquote>")] := by
  cases h : convs m.chat_id <;>
    cases hf : f (submissionPayload convs m) <;>
    simp_all [procressMessage, submissionPayload, historyAtRunCall, Conversations.set] <;>
    try (split <;> simp_all)

/-- Unfolding lemma: the conversation store after one handler invocation
on a well-formed update, described pointwise. -/
lemma procressMessage_state (f : List Turn → Except String String)
    (convs : Conversations) (m : Message) (c : Chat) (d : Int) :
    (procressMessage f convs ⟨some m, some c⟩).1 d =
      if d = m.chat_id then
        some (match f (submissionPayload convs m) with
          | .error _ => historyAtRunCall convs m
          | .ok r => historyAtRunCall convs m ++ [⟨"assistant", some r⟩])
      else convs d := by
  by_cases hd : d = m.chat_id <;>
    cases h : convs m.chat_id <;>
    cases hf : f (submissionPayload convs m) <;>
    simp_all [procressMessage, submissionPayload, historyAtRunCall, Conversations.set,
      apply_ite Prod.fst]

/-- C1: for every conversation id and inbound message, the payload the
handler submits to the agent is exactly the last 5 turns of the stored
history at submission time (all of them when fewer than 5 exist), in
chronological order (it is a suffix of the stored history), never longer
than the stored history; and after 6 sequential user messages on one
channel the 6th submission payload excludes the oldest turn. -/
theorem submission_is_last_five (f : List Turn → Except String String)
    (convs : Conversations) (m : Message) (c : Chat) :
    agentPayloads (procressMessage f convs ⟨some m, some c⟩).2 =
        [submissionPayload convs m]
    ∧ submissionPayload convs m = lastN 5 (historyAtRunCall convs m)
    ∧ submissionPayload convs m <:+ historyAtRunCall convs m
    ∧ (submissionPayload convs m).length ≤ 5
    ∧ (submissionPayload convs m).length ≤ (historyAtRunCall convs m).length
    ∧ ((historyAtRunCall convs m).length ≤ 5 →
        submissionPayload convs m = historyAtRunCall convs m)
    ∧ (5 ≤ (historyAtRunCall convs m).length →
        (submissionPayload convs m).length = 5)
    ∧ agentPayloads
        ((processSeq (fun _ => .ok "ok") sixUserMessages Conversations.empty).2.getD 5 [])
        = [[⟨"user", some "m4"⟩, ⟨"assistant", some "ok"⟩, ⟨"user", some "m5"⟩,
            ⟨"assistant", some "ok"⟩, ⟨"user", some "m6"⟩]]
    ∧ ∀ p ∈ agentPayloads
        ((processSeq (fun _ => .ok "ok") sixUserMessages Conversations.empty).2.getD 5 []),
        Turn.mk "user" (some "m1") ∉ p := by
  refine ⟨?_, rfl, lastN_suffix 5 _, lastN_length_le 5 _, lastN_length_le_length 5 _,
    ?_, ?_, by decide, by decide⟩
  · rw [procressMessage_effects]
    cases hf : f (submissionPayload convs m) with
    | error e => simp [agentPayloads]
    | ok r =>
      by_cases hr : r.length < 200
      · simp [agentPayloads, hr]
      · simp [agentPayloads, hr]
  · intro h
    simp [submissionPayload, lastN, Nat.sub_eq_zero_of_le h]
  · intro h
    simp only [submissionPayload, lastN, List.length_drop]
    omega

/-- C1 witness: with 4 turns already stored on chat 1, the history at the
run call has exactly 5 turns, the payload is all of them, and its length
is 5. -/
theorem submission_is_last_five_witness :
    (submissionPayload
        (Conversations.empty.set 1
          [⟨"user", some "a"⟩, ⟨"assistant", some "b"⟩,
           ⟨"user", some "c"⟩, ⟨"assistant", some "d"⟩])
        ⟨1, 9, some "e"⟩
      = historyAtRunCall
          (Conversations.empty.set 1
            [⟨"user", some "a"⟩, ⟨"assistant", some "b"⟩,
             ⟨"user", some "c"⟩, ⟨"assistant", some "d"⟩])
          ⟨1, 9, some "e"⟩)
    ∧ (submissionPayload
        (Conversations.empty.set 1
          [⟨"user", some "a"⟩, ⟨"assistant", some "b"⟩,
           ⟨"user", some "c"⟩, ⟨"assistant", some "d"⟩])
        ⟨1, 9, some "e"⟩).length = 5 :=
  ⟨(submission_is_last_five (fun _ => .ok "hi") _ ⟨1, 9, some "e"⟩ ⟨1⟩).2.2.2.2.2.1
      (by decide),
   (submission_is_last_five (fun _ => .ok "hi") _ ⟨1, 9, some "e"⟩ ⟨1⟩).2.2.2.2.2.2.1
      (by decide)⟩

/-- C2: if the agent invocation raises, no assistant turn is appended and
the stored history after the handler finishes equals exactly the history
as it was when the failed `run` call was made (the assistant-turn count is
also unchanged from before the handler ran). -/
theorem run_failure_leaves_history_unchanged
    (f : List Turn → Except String String) (convs : Conversations)
    (m : Message) (c : Chat) (e : String)
    (hf : f (submissionPayload convs m) = .error e) :
    (procressMessage f convs ⟨some m, some c⟩).1 m.chat_id =
        some (historyAtRunCall convs m)
    ∧ (((procressMessage f convs ⟨some m, some c⟩).1 m.chat_id).getD []).countP
        (fun t => t.role == "assistant")
      = ((convs m.chat_id).getD []).countP (fun t => t.role == "assistant") := by
  have hs := procressMessage_state f convs m c m.chat_id
  rw [hf] at hs
  simp only [if_pos rfl] at hs
  refine ⟨hs, ?_⟩
  rw [hs]
  simp [historyAtRunCall, List.countP_append, List.countP_cons]

/-- C2 witness: a failing run on a fresh channel leaves exactly the one
user turn in the store. -/
theorem run_failure_leaves_history_unchanged_witness :
    (procressMessage (fun _ => .error "boom") Conversations.empty
        ⟨some ⟨1, 1, some "hi"⟩, some ⟨1⟩⟩).1 1 = some [⟨"user", some "hi"⟩] :=
  (run_failure_leaves_history_unchanged (fun _ => .error "boom")
      Conversations.empty ⟨1, 1, some "hi"⟩ ⟨1⟩ "boom" rfl).1

/-- C3: a successful reply strictly shorter than 200 characters is sent as
a plain-text reply; a reply of length 200 or more is sent as an expandable
blockquote addressed to the originating chat and message. -/
theorem reply_length_formatting (f : List Turn → Except String String)
    (convs : Conversations) (m : Message) (c : Chat) (resp : String)
    (hf : f (submissionPayload convs m) = .ok resp) :
    (resp.length < 200 →
      sends (procressMessage f convs ⟨some m, some c⟩).2 = [.replyText resp])
    ∧ (200 ≤ resp.length →
      sends (procressMessage f convs ⟨some m, some c⟩).2 =
        [.sendQuoted c.id m.message_id
          ("<blockquote expandable>" ++ resp ++ "</blockquote>")]) := by
  constructor <;> intro h <;> rw [procressMessage_effects] <;> rw [hf]
  · simp [sends, h]
  · simp [sends, Nat.not_lt.mpr h]

set_option maxRecDepth 4096 in
/-- C3 witness: the boundary is exactly at 200 characters: a 199-character
reply goes out plain, a 200-character reply goes out quoted. -/
theorem reply_length_formatting_witness :
    sends (procressMessage (fun _ => .ok (manyChars 199)) Conversations.empty
        ⟨some ⟨1, 1, some "q"⟩, some ⟨1⟩⟩).2 = [.replyText (manyChars 199)]
    ∧ sends (procressMessage (fun _ => .ok (manyChars 200)) Conversations.empty
        ⟨some ⟨1, 1, some "q"⟩, some ⟨1⟩⟩).2 =
      [.sendQuoted 1 1 ("<blockquote expandable>" ++ manyChars 200 ++ "</blockquote>")] :=
  ⟨(reply_length_formatting (fun _ => .ok (manyChars 199)) Conversations.empty
      ⟨1, 1, some "q"⟩ ⟨1⟩ (manyChars 199) rfl).1 (by decide),
   (reply_length_formatting (fun _ => .ok (manyChars 200)) Conversations.empty
      ⟨1, 1, some "q"⟩ ⟨1⟩ (manyChars 200) rfl).2 (by decide)⟩

/-- C4: when the agent invocation raises with message `e`, the handler
performs exactly one send: a plain-text reply to the originating message
whose text is the apology prefix followed by `e` verbatim (so it contains
the exception text); no normal reply is sent. -/
theorem error_reply_echoes_exception (f : List Turn → Except String String)
    (convs : Conversations) (m : Message) (c : Chat) (e : String)
    (hf : f (submissionPayload convs m) = .error e) :
    sends (procressMessage f convs ⟨some m, some c⟩).2 =
        [.replyText (apologyHead ++ e)]
    ∧ ∃ p, apologyHead ++ e = p ++ e := by
  refine ⟨?_, ⟨apologyHead, rfl⟩⟩
  rw [procressMessage_effects, hf]
  simp [sends]

/-- C4 witness: a run raising with message "timeout" produces one plain
reply containing "timeout". -/
theorem error_reply_echoes_exception_witness :
    sends (procressMessage (fun _ => .error "timeout") Conversations.empty
        ⟨some ⟨2, 5, some "do it"⟩, some ⟨2⟩⟩).2 =
      [.replyText (apologyHead ++ "timeout")] :=
  (error_reply_echoes_exception (fun _ => .error "timeout") Conversations.empty
      ⟨2, 5, some "do it"⟩ ⟨2⟩ "timeout" rfl).1

/-- C5 counterexample: an inbound event whose message is present but
carries no textual content (`update.message.text is None`, e.g. a photo
sent as a reply with no caption) is NOT a no-op: the handler appends a
user turn with `None` content, invokes the agent, and sends a reply. -/
theorem no_text_event_still_processed :
    Update.carriesText ⟨some ⟨1, 1, none⟩, some ⟨1⟩⟩ = false
    ∧ (procressMessage (fun _ => .ok "hi") Conversations.empty
        ⟨some ⟨1, 1, none⟩, some ⟨1⟩⟩).2 =
      [.agentInvoked [⟨"user", none⟩], .replyText "hi"]
    ∧ (procressMessage (fun _ => .ok "hi") Conversations.empty
        ⟨some ⟨1, 1, none⟩, some ⟨1⟩⟩).1 1 =
      some [⟨"user", none⟩, ⟨"assistant", some "hi"⟩] := by
  decide

/-- C5 amended: the handler is a no-op apart from logging exactly when
the event has no message object or no effective chat (the guard is
`update.message is None or update.effective_chat is None`); an event whose
message is present but has no text is still fully processed. -/
theorem missing_message_or_chat_is_noop (f : List Turn → Except String String)
    (convs : Conversations) (u : Update)
    (h : u.message = none ∨ u.effective_chat = none) :
    procressMessage f convs u = (convs, []) := by
  cases u with
  | mk mo co =>
    rcases h with h | h
    · subst h
      cases co <;> rfl
    · subst h
      cases mo <;> rfl

/-- C5 amended witness: an update with neither message nor chat leaves the
store untouched and produces no effects. -/
theorem missing_message_or_chat_is_noop_witness :
    procressMessage (fun _ => .ok "hi") Conversations.empty ⟨none, none⟩ =
      (Conversations.empty, []) :=
  missing_message_or_chat_is_noop (fun _ => .ok "hi") Conversations.empty
    ⟨none, none⟩ (Or.inl rfl)

/-- C8: the handler modifies at most the conversations-map entry for the
chat id of the inbound message: every other entry reads the same after
the handler as before it, on the success path, the failure path, and the
reject path alike. -/
theorem other_chats_unchanged (f : List Turn → Except String String)
    (convs : Conversations) (u : Update) (d : Int)
    (h : ∀ m, u.message = some m → d ≠ m.chat_id) :
    (procressMessage f convs u).1 d = convs d := by
  cases u with
  | mk mo co =>
    cases mo with
    | none => cases co <;> rfl
    | some m =>
      cases co with
      | none => rfl
      | some c =>
        rw [procressMessage_state]
        simp [h m rfl]

/-- C8 witness: a message on chat 1 leaves the entry for chat 2 absent. -/
theorem other_chats_unchanged_witness :
    (procressMessage (fun _ => .ok "hi") Conversations.empty
        ⟨some ⟨1, 1, some "x"⟩, some ⟨1⟩⟩).1 2 = none :=
  other_chats_unchanged (fun _ => .ok "hi") Conversations.empty
    ⟨some ⟨1, 1, some "x"⟩, some ⟨1⟩⟩ 2 (fun m hm => by cases hm; decide)

/-- C9: the user turn appended before a failing agent invocation is not
rolled back: after the failure path the stored history is the prior
contents extended by exactly that one user turn, so it ends in a trailing
user turn. -/
theorem failure_keeps_trailing_user_turn (f : List Turn → Except String String)
    (convs : Conversations) (m : Message) (c : Chat) (e : String)
    (hf : f (submissionPayload convs m) = .error e) :
    (procressMessage f convs ⟨some m, some c⟩).1 m.chat_id =
        some ((convs m.chat_id).getD [] ++ [Turn.mk "user" m.text])
    ∧ ((convs m.chat_id).getD [] ++ [Turn.mk "user" m.text]).getLast? =
        some (Turn.mk "user" m.text) := by
  constructor
  · have hs := procressMessage_state f convs m c m.chat_id
    rw [hf] at hs
    simpa [historyAtRunCall] using hs
  · exact List.getLast?_concat _

/-- C9 witness: after a failing run on a fresh channel the history is the
single user turn, which is trailing with no assistant turn after it. -/
theorem failure_keeps_trailing_user_turn_witness :
    (procressMessage (fun _ => .error "oops") Conversations.empty
        ⟨some ⟨3, 4, some "ping"⟩, some ⟨3⟩⟩).1 3 = some [⟨"user", some "ping"⟩]
    ∧ ([⟨"user", some "ping"⟩] : List Turn).getLast? = some ⟨"user", some "ping"⟩ :=
  failure_keeps_trailing_user_turn (fun _ => .error "oops") Conversations.empty
    ⟨3, 4, some "ping"⟩ ⟨3⟩ "oops" rfl

/-- C6: `connect` attempts every configured server exactly once, in
order, never raises to its caller (the result is always `.ok`, with one
entry per server whose outcome depends only on the attempt made for that
server alone), and a subsequent `run` call is always reached. -/
theorem connect_attempts_all_servers {σ : Type}
    (attempt : σ → Except String Unit) (servers : List σ) :
    OpenAIAgent_connect attempt servers =
        .ok (servers.map fun s => (s, (attempt s).toBool))
    ∧ ∀ runCall : Except String String,
        connectThenRun attempt servers runCall = runCall := by
  have hconn : OpenAIAgent_connect attempt servers =
      .ok (servers.map fun s => (s, (attempt s).toBool)) := by
    induction servers with
    | nil => rfl
    | cons s rest ih =>
      cases ha : attempt s <;>
        simp [OpenAIAgent_connect, ih, ha, Except.toBool, Except.isOk]
  refine ⟨hconn, fun runCall => ?_⟩
  unfold connectThenRun
  rw [hconn]
  rfl

/-- C7: a missing bot username or missing token makes construction raise
the corresponding `ValueError`; a missing or unparsable configuration
file makes `load_config` raise; each of these propagates out of the
startup path uncaught (the `try` in `main` starts only after them); and
with a token, a username and a loadable configuration, startup
succeeds. -/
theorem startup_config_errors_fatal (J : Type) :
    (∀ token : Option String,
        TelegramMCPBot_init token none = .error "BOT_USERNAME is not set")
    ∧ (∀ u : String,
        TelegramMCPBot_init none (some u) = .error "TELEGRAM_TOKEN is not set")
    ∧ (∀ t u : String,
        TelegramMCPBot_init (some t) (some u) = .ok ⟨u, t⟩)
    ∧ (∀ (parseJson : String → Option J) (file_path : String),
        load_config (fun _ => none) parseJson file_path = .error .fileNotFound)
    ∧ (∀ raw file_path : String,
        load_config (fun _ => some raw) (fun _ => (none : Option J)) file_path
          = .error .jsonDecode)
    ∧ (∀ (parseJson : String → Option J) (token bot_username : Option String),
        mainStartup (fun _ => none) parseJson token bot_username
          = .error (.config .fileNotFound))
    ∧ (∀ (raw : String) (token bot_username : Option String),
        mainStartup (fun _ => some raw) (fun _ => (none : Option J)) token bot_username
          = .error (.config .jsonDecode))
    ∧ (∀ (raw : String) (j : J) (t : String),
        mainStartup (fun _ => some raw) (fun _ => some j) (some t) none
          = .error (.value "BOT_USERNAME is not set"))
    ∧ (∀ (raw : String) (j : J) (t u : String),
        mainStartup (fun _ => some raw) (fun _ => some j) (some t) (some u)
          = .ok ⟨u, t⟩) :=
  ⟨fun _ => rfl, fun _ => rfl, fun _ _ => rfl, fun _ _ => rfl, fun _ _ => rfl,
   fun _ _ _ => rfl, fun _ _ _ => rfl, fun _ _ _ => rfl, fun _ _ _ _ => rfl⟩

/-- C10: every `OpenAIAgent.run` call appends its entire argument as the
content of one new user entry, submits the accumulated buffer to the
runner, returns the runner output, and afterwards the buffer is the
runner input-list truncated to its last 5 entries, hence of length at
most 5 after every completed call. -/
theorem agent_run_rolling_buffer {μ ρ : Type}
    (runner : List (AgentItem μ ρ) → RunResult μ ρ)
    (buffer : List (AgentItem μ ρ)) (message : μ) :
    (OpenAIAgent_run runner buffer message).2 =
        lastN 5 (runner (buffer ++ [.user message])).input_list
    ∧ (OpenAIAgent_run runner buffer message).1 =
        (runner (buffer ++ [.user message])).final_output
    ∧ (OpenAIAgent_run runner buffer message).2.length ≤ 5 :=
  ⟨rfl, rfl, lastN_length_le 5 _⟩

end TgBot
